import Mathlib

/-!
Verification of the Planning Center Online connector
(`source_planning_center/source.py`) against its specification.

The connector is a thin adaptation layer over a generic HTTP-streaming
framework.  We shallowly embed the connector's own functions
(`next_page_token`, `request_params`, `parse_response`, `request_headers`,
`get_auth_header`, `check_connection`, `streams`, and the child-stream
`read_records` overrides) over a JSON value model.  Python exceptions
(`AttributeError`, `KeyError`) are modelled with `Except Unit`; Python's
`None` result of `dict.get` is modelled by `Json.null` (both make the next
attribute access fail, exactly as in Python).
-/

namespace PlanningCenter

/-- JSON values as produced by `response.json()` / found in the config. -/
inductive Json where
  | null : Json
  | bool : Bool → Json
  | num : Int → Json
  | str : String → Json
  | arr : List Json → Json
  | obj : List (String × Json) → Json

/-- Python `dict.get(k)` on an association list: the stored value, or `None`
(modelled as `Json.null`) when the key is missing. -/
def lookupD (kvs : List (String × Json)) (k : String) : Json :=
  match kvs.find? (fun kv => kv.1 = k) with
  | some kv => kv.2
  | none => Json.null

/-- Python attribute-style `x.get(k)`: succeeds only when `x` is a dict
(returning the value or `None`); on any other value (`None`, list, string,
number, bool) the attribute access raises `AttributeError`, modelled as
`Except.error`. -/
def pyGet : Json → String → Except Unit Json
  | Json.obj kvs, k => Except.ok (lookupD kvs k)
  | _, _ => Except.error ()

/-- Python subscription `x[k]`: `KeyError` when the key is missing,
`TypeError` when `x` is not a dict; both modelled as `Except.error`. -/
def pyIndex : Json → String → Except Unit Json
  | Json.obj kvs, k =>
      match kvs.find? (fun kv => kv.1 = k) with
      | some kv => Except.ok kv.2
      | none => Except.error ()
  | _, _ => Except.error ()

/-- A pagination token, as the connector builds it: the mapping
`{"offset": o}` (a Python dict). -/
abbrev PageTok := List (String × Json)

/-- `PlanningCenterStream.next_page_token` (source.py lines 51–67):
evaluates `response.json().get("meta").get("next").get("offset")` inside a
`try`, returning `{"offset": <value>}` on success and `None` on
`AttributeError` / `KeyError`. -/
def next_page_token (body : Json) : Option PageTok :=
  match (pyGet body "meta").bind
          (fun m => (pyGet m "next").bind (fun n => pyGet n "offset")) with
  | Except.ok o => some [("offset", o)]
  | Except.error _ => none

/-- The spec's reading of the contract ("the value reachable at
`meta.next.offset`", absence at any level or a non-object hit giving no
cursor): a plain three-step lookup where a missing key or a non-object
value yields `none`.  Written from the spec's words, to be compared with
`next_page_token` above. -/
def objLookup : Json → String → Option Json
  | Json.obj kvs, k => (kvs.find? (fun kv => kv.1 = k)).map (fun kv => kv.2)
  | _, _ => none

/-- The spec's three-step reachability lookup (continued from the doc
comment above). -/
def specReachOffset (body : Json) : Option Json :=
  (objLookup body "meta").bind
    (fun m => (objLookup m "next").bind (fun n => objLookup n "offset"))

/-- What `next_page_token` actually computes: `none` when `meta` or
`meta.next` is absent or not an object; once `meta.next` is an object it
returns `some {offset: v}` where `v` is the value at `offset`, or `null`
when that key is absent. -/
def nextTokenActual (body : Json) : Option PageTok :=
  match body with
  | Json.obj kvs =>
      match lookupD kvs "meta" with
      | Json.obj m =>
          match lookupD m "next" with
          | Json.obj n => some [("offset", lookupD n "offset")]
          | _ => none
      | _ => none
  | _ => none

/-- `PlanningCenterStream.request_params` (source.py lines 69–83):
`{"per_page": 100}`, plus `"offset": next_page_token.get("offset")` when
the token is truthy (a non-empty mapping). -/
def request_params (next_page_tok : Option PageTok) : List (String × Json) :=
  let params : List (String × Json) := [("per_page", Json.num 100)]
  match next_page_tok with
  | some kvs => if kvs.isEmpty then params else params ++ [("offset", lookupD kvs "offset")]
  | none => params

/-- `PlanningCenterStream.parse_response` (source.py lines 85–94):
`response.json().get("data")`.  Raises `AttributeError` when the body is
not a dict; otherwise returns the value at `"data"` (or `None`). -/
def parse_response (body : Json) : Except Unit Json :=
  pyGet body "data"

/-- Modelled from the spec: the host framework iterates whatever
`parse_response` returned; per §4.4 a missing `data` field "degrades to no
records for that page".  An array contributes its elements in order;
anything else contributes no records. -/
def emittedRecords (r : Except Unit Json) : List Json :=
  match r with
  | Except.ok (Json.arr xs) => xs
  | _ => []

/-! ### Stream catalog, API-version headers, connection check -/

/-- The concrete stream classes defined in source.py. -/
inductive StreamKind where
  | groupsAttendance | groupsEvent | groupsGroup | groupsGroupType | groupsMembership
  | peopleAddress | peopleCampus | peopleEmail | peopleHousehold
  | peoplePerson | peoplePhoneNumber
  deriving DecidableEq

/-- Which family base class (`PlanningCenterGroupsStream` vs
`PlanningCenterPeopleStream`) each concrete class inherits from. -/
def familyIsGroups : StreamKind → Bool
  | StreamKind.groupsAttendance | StreamKind.groupsEvent | StreamKind.groupsGroup
  | StreamKind.groupsGroupType | StreamKind.groupsMembership => true
  | _ => false

/-- `request_headers` (source.py lines 105–111 for Groups, 192–198 for
People): each family base class returns its fixed `X-PCO-API-Version`
header, ignoring `stream_state`, `stream_slice` and `next_page_token`. -/
def request_headers (k : StreamKind) (stream_state : Json)
    (stream_slice : Option (List (String × Json))) (next_page_tok : Option PageTok) :
    List (String × String) :=
  match stream_state, stream_slice, next_page_tok with
  | _, _, _ =>
    if familyIsGroups k then [("X-PCO-API-Version", "2018-08-01")]
    else [("X-PCO-API-Version", "2020-07-22")]

/-- A stream object handed to the host framework: its class together with
the credentials held by the shared `BasicAuthenticator` (`config.get`
results, `Json.null` when the key is missing, exactly as Python's `None`). -/
structure StreamObj where
  kind : StreamKind
  app_id : Json
  secret : Json

/-- `SourcePlanningCenter.check_connection` (source.py lines 287–296):
literally `return True, None` for any logger and config. -/
def check_connection (logger : Unit) (config : List (String × Json)) :
    Bool × Option String :=
  match logger, config with
  | _, _ => (true, none)

/-- `SourcePlanningCenter.streams` (source.py lines 298–314): reads
`config.get("app_id")` and `config.get("secret")`, builds one
`BasicAuthenticator` from whatever came back, and returns the fixed list of
eight stream instances sharing that authenticator. -/
def streams (config : List (String × Json)) : List StreamObj :=
  let app_id := lookupD config "app_id"
  let secret := lookupD config "secret"
  [ { kind := StreamKind.groupsEvent, app_id := app_id, secret := secret },
    { kind := StreamKind.groupsGroupType, app_id := app_id, secret := secret },
    { kind := StreamKind.groupsGroup, app_id := app_id, secret := secret },
    { kind := StreamKind.peoplePerson, app_id := app_id, secret := secret },
    { kind := StreamKind.peopleAddress, app_id := app_id, secret := secret },
    { kind := StreamKind.peopleEmail, app_id := app_id, secret := secret },
    { kind := StreamKind.peopleHousehold, app_id := app_id, secret := secret },
    { kind := StreamKind.peopleCampus, app_id := app_id, secret := secret } ]

/-! ### Basic authentication (`BasicAuthenticator.get_auth_header`)

`requests.auth._basic_auth_str(u, p)` returns
`"Basic " + b64encode(u + ":" + p)` over the latin-1 bytes of the two
strings.  We model a string's bytes by its characters' code points (which
is exactly latin-1 for code points below 256) and implement the standard
base64 alphabet with `=` padding. -/

/-- The sixty-four characters of the standard base64 alphabet. -/
def b64Alphabet : String :=
  "ABCDEFGHIJKLMNOPQRSTUVWXYZabcdefghijklmnopqrstuvwxyz0123456789+/"

def b64Char (n : Nat) : Char := b64Alphabet.data.getD n 'A'

/-- Standard base64 of a byte list, three bytes to four characters, with
`=` padding on a final group of one or two bytes. -/
def base64Encode : List Nat → String
  | [] => ""
  | [a] =>
      String.mk [b64Char (a / 4), b64Char (a % 4 * 16), '=', '=']
  | [a, b] =>
      String.mk [b64Char (a / 4), b64Char (a % 4 * 16 + b / 16),
                 b64Char (b % 16 * 4), '=']
  | a :: b :: c :: rest =>
      String.mk [b64Char (a / 4), b64Char (a % 4 * 16 + b / 16),
                 b64Char (b % 16 * 4 + c / 64), b64Char (c % 64)] ++
      base64Encode rest

/-- Latin-1 bytes of a string (code points, valid below 256 — the range
`requests` can encode). -/
def strBytes (s : String) : List Nat := s.data.map Char.toNat

/-- `BasicAuthenticator.get_auth_header` (source.py lines 35–45): the
header dict `{"Authorization": requests.auth._basic_auth_str(app_id,
secret)}`, where `_basic_auth_str` yields `"Basic " ++ base64(app_id ++
":" ++ secret)`. -/
def get_auth_header (app_id secret : String) : List (String × String) :=
  [("Authorization", "Basic " ++ base64Encode (strBytes (app_id ++ ":" ++ secret)))]

/-! ### Stream traversal and parent-driven child streams

The page loop itself lives in the host framework (`HttpStream.read_records`),
not in this repository; it is modelled from the spec, §4.5: issue the
request for the current cursor, emit the parsed records, compute the next
cursor, repeat until there is no cursor.  `fuel` bounds the number of
pages (the real loop need not terminate). -/

/-- Modelled from the spec: §4.5 stream traversal protocol of the host
framework's `HttpStream.read_records` (not part of this repository).
`respond` maps a pagination token to the response body the API returns for
the corresponding request. -/
def read_http (respond : Option PageTok → Json) : Nat → Option PageTok → List Json
  | 0, _ => []
  | fuel + 1, tok =>
      let body := respond tok
      emittedRecords (parse_response body) ++
        match next_page_token body with
        | none => []
        | some t => read_http respond fuel (some t)

/-- The child-stream `read_records` override (source.py lines 123–127,
177–180, 281–284): for each record of a freshly-run parent traversal, in
order, index `parent["id"]` (a `KeyError` propagates) and yield the full
child traversal for the slice parameterized by that id, before moving to
the next parent. `respondChild pid` plays the role of requests against the
id-parameterized child path. -/
def read_records_child (respondChild : Json → Option PageTok → Json) (fuel : Nat) :
    List Json → Except Unit (List Json)
  | [] => Except.ok []
  | p :: ps => do
      let pid ← pyIndex p "id"
      let rest ← read_records_child respondChild fuel ps
      Except.ok (read_http (respondChild pid) fuel none ++ rest)

/-- A child stream's complete `read_records` run: the parent stream's full
traversal feeds the per-parent child traversals. -/
def read_records_childAll (respondParent : Option PageTok → Json)
    (respondChild : Json → Option PageTok → Json) (fuel : Nat) :
    Except Unit (List Json) :=
  read_records_child respondChild fuel (read_http respondParent fuel none)

/-- The id of each parent record in encounter order (`parent["id"]`, as the
child-stream loop indexes it; a missing id raises). -/
def idsOf : List Json → Except Unit (List Json)
  | [] => Except.ok []
  | p :: ps => do
      let pid ← pyIndex p "id"
      let rest ← idsOf ps
      Except.ok (pid :: rest)

/-- Concrete scenario from the spec, §8.5: a parent page with two records
of ids "P1" and "P2". -/
def parentBody : Json := Json.obj [("data", Json.arr
  [Json.obj [("id", Json.str "P1")], Json.obj [("id", Json.str "P2")]])]

/-- Concrete scenario from the spec, §8.5: each parent's single child page
holds two records tagged with that parent's id. -/
def childBody (pid : Json) : Json := Json.obj [("data", Json.arr
  [Json.obj [("id", pid), ("n", Json.num 1)],
   Json.obj [("id", pid), ("n", Json.num 2)]])]

/-! ## Theorems -/

/-- C1 counterexample: at the body `{"meta": {"next": {}}}` the value at
`meta.next.offset` is absent (the spec-side lookup yields `none`), yet
`next_page_token` does not return `None`: it returns `{"offset": null}`, a
non-empty — hence truthy — token.  This refutes the claim that the result
is `None` whenever `offset` is absent at any level. -/
theorem nextPageToken_missing_offset_counterexample :
    specReachOffset (Json.obj [("meta", Json.obj [("next", Json.obj [])])]) = none ∧
    next_page_token (Json.obj [("meta", Json.obj [("next", Json.obj [])])]) =
      some [("offset", Json.null)] ∧
    next_page_token (Json.obj [("meta", Json.obj [("next", Json.obj [])])]) ≠ none :=
  ⟨rfl, rfl, fun h => Option.noConfusion h⟩

/-- C1 (amended): `next_page_token` is total (it returns an `Option`, never
propagating a lookup failure) and equals the following characterization:
`none` when `meta` or `meta.next` is absent or the traversal hits a
non-object value, and — once `meta.next` is an object — `some {offset: v}`
where `v` is the value at `offset`, or `null` when that key is absent. -/
theorem nextPageToken_characterization (body : Json) :
    next_page_token body = nextTokenActual body := by
  cases body <;> simp only [next_page_token, nextTokenActual, pyGet, Except.bind]
  case obj kvs =>
    cases lookupD kvs "meta" <;> simp only [pyGet]
    case obj m =>
      cases lookupD m "next" <;> simp only [pyGet]

/-- Helper for C2: the child-stream loop over an explicit parent list
emits, when every parent record carries an id, exactly the concatenation of
the per-parent child traversals, in parent order. -/
theorem read_records_child_concat (respondChild : Json → Option PageTok → Json)
    (fuel : Nat) :
    ∀ (ps ids : List Json), idsOf ps = Except.ok ids →
      read_records_child respondChild fuel ps =
        Except.ok ((ids.map (fun i => read_http (respondChild i) fuel none)).flatten)
  | [], ids, h => by
      simp only [idsOf, Except.ok.injEq] at h
      subst h
      rfl
  | p :: ps, ids, h => by
      simp only [idsOf, bind, Except.bind] at h
      cases hp : pyIndex p "id" with
      | error e => rw [hp] at h; exact Except.noConfusion h
      | ok pid =>
        rw [hp] at h
        cases hps : idsOf ps with
        | error e => rw [hps] at h; exact Except.noConfusion h
        | ok ids' =>
          rw [hps] at h
          injection h with h
          subst h
          simp only [read_records_child, bind, Except.bind, hp,
            read_records_child_concat respondChild fuel ps ids' hps,
            List.map_cons, List.flatten_cons]

/-- C2: a child stream's `read_records` (parent traversal feeding one child
traversal per parent id) emits exactly the concatenation, over the parent
records in encounter order, of each parent's complete child-record
sequence — all of one parent's child records before any of the next
parent's, with no interleaving.  `respondChild i` stands for the API
behind the child path parameterized by parent id `i`; the statement covers
all three child streams (Membership/Group, Attendance/Event,
PhoneNumber/Person), which differ only in that parameterization. -/
theorem readRecords_child_no_interleaving (respondParent : Option PageTok → Json)
    (respondChild : Json → Option PageTok → Json) (fuel : Nat) (ids : List Json)
    (h : idsOf (read_http respondParent fuel none) = Except.ok ids) :
    read_records_childAll respondParent respondChild fuel =
      Except.ok ((ids.map (fun i => read_http (respondChild i) fuel none)).flatten) :=
  read_records_child_concat respondChild fuel _ ids h

/-- C2 witness: the spec's §8.5 scenario — two parents "P1", "P2", each
with one child page of two records — emits P1's two records in page order,
then P2's two, with no interleaving. -/
theorem readRecords_child_no_interleaving_witness :
    idsOf (read_http (fun _ => parentBody) 1 none) =
      Except.ok [Json.str "P1", Json.str "P2"] ∧
    read_records_childAll (fun _ => parentBody) (fun pid _ => childBody pid) 1 =
      Except.ok [Json.obj [("id", Json.str "P1"), ("n", Json.num 1)],
                 Json.obj [("id", Json.str "P1"), ("n", Json.num 2)],
                 Json.obj [("id", Json.str "P2"), ("n", Json.num 1)],
                 Json.obj [("id", Json.str "P2"), ("n", Json.num 2)]] :=
  ⟨rfl,
   (readRecords_child_no_interleaving (fun _ => parentBody)
      (fun pid _ => childBody pid) 1 [Json.str "P1", Json.str "P2"] rfl).trans rfl⟩

/-- C3: `request_params` yields exactly `{per_page: 100}` with no prior
cursor and exactly `{per_page: 100, offset: 42}` with a cursor of offset
42; for every token, `per_page` is the fixed 100 and `offset` is the only
other key that can appear. -/
theorem requestParams_shape :
    request_params none = [("per_page", Json.num 100)] ∧
    request_params (some [("offset", Json.num 42)]) =
      [("per_page", Json.num 100), ("offset", Json.num 42)] ∧
    ∀ tok : Option PageTok,
      request_params tok = [("per_page", Json.num 100)] ∨
      ∃ v, request_params tok = [("per_page", Json.num 100), ("offset", v)] := by
  refine ⟨rfl, rfl, fun tok => ?_⟩
  cases tok with
  | none => exact Or.inl rfl
  | some kvs =>
      by_cases hk : kvs.isEmpty
      · exact Or.inl (by simp [request_params, hk])
      · exact Or.inr ⟨lookupD kvs "offset", by simp [request_params, hk]⟩

/-- C4 counterexample: on a well-formed config, the list returned by
`streams` contains no Membership, Attendance or PhoneNumber stream — the
three child classes exist in the module but are not exposed, contradicting
the claimed full catalog. -/
theorem streams_omits_child_streams_counterexample :
    StreamKind.groupsMembership ∉
      (streams [("app_id", Json.str "a"), ("secret", Json.str "b")]).map StreamObj.kind ∧
    StreamKind.groupsAttendance ∉
      (streams [("app_id", Json.str "a"), ("secret", Json.str "b")]).map StreamObj.kind ∧
    StreamKind.peoplePhoneNumber ∉
      (streams [("app_id", Json.str "a"), ("secret", Json.str "b")]).map StreamObj.kind := by
  refine ⟨?_, ?_, ?_⟩ <;> decide

/-- C4 (amended): for every config, `streams` exposes exactly eight
streams — Event, GroupType, Group from the Groups family and Person,
Address, Email, Household, Campus from the People family, in that order;
the Membership, Attendance and PhoneNumber classes are defined but never
returned. -/
theorem streams_catalog (config : List (String × Json)) :
    (streams config).map StreamObj.kind =
      [StreamKind.groupsEvent, StreamKind.groupsGroupType, StreamKind.groupsGroup,
       StreamKind.peoplePerson, StreamKind.peopleAddress, StreamKind.peopleEmail,
       StreamKind.peopleHousehold, StreamKind.peopleCampus] := rfl

/-- C5: for every request state (stream state, slice, token), every
Groups-family stream's `request_headers` is exactly
`{X-PCO-API-Version: 2018-08-01}` and every People-family stream's is
exactly `{X-PCO-API-Version: 2020-07-22}`. -/
theorem requestHeaders_family_version (st : Json)
    (sl : Option (List (String × Json))) (tok : Option PageTok) :
    (∀ k, familyIsGroups k = true →
       request_headers k st sl tok = [("X-PCO-API-Version", "2018-08-01")]) ∧
    (∀ k, familyIsGroups k = false →
       request_headers k st sl tok = [("X-PCO-API-Version", "2020-07-22")]) :=
  ⟨fun k hk => by simp [request_headers, hk],
   fun k hk => by simp [request_headers, hk]⟩

/-- C5 witness: concrete instances — `GroupsEvent` carries the 2018-08-01
header and `PeoplePerson` the 2020-07-22 header. -/
theorem requestHeaders_family_version_witness :
    request_headers StreamKind.groupsEvent Json.null none none =
      [("X-PCO-API-Version", "2018-08-01")] ∧
    request_headers StreamKind.peoplePerson Json.null none none =
      [("X-PCO-API-Version", "2020-07-22")] :=
  ⟨(requestHeaders_family_version Json.null none none).1 StreamKind.groupsEvent rfl,
   (requestHeaders_family_version Json.null none none).2 StreamKind.peoplePerson rfl⟩

/-- C6: `parse_response` returns exactly the array at the body's `data`
key, preserving order (in particular on
`{"data": [{"id": "1"}, {"id": "2"}]}` it emits those two records in that
order), and on an object without a `data` key it returns Python `None`
(no records emitted downstream) rather than raising. -/
theorem parseResponse_data_array :
    (∀ kvs xs, lookupD kvs "data" = Json.arr xs →
       parse_response (Json.obj kvs) = Except.ok (Json.arr xs) ∧
       emittedRecords (parse_response (Json.obj kvs)) = xs) ∧
    (∀ kvs, kvs.find? (fun kv => kv.1 = "data") = none →
       parse_response (Json.obj kvs) = Except.ok Json.null ∧
       emittedRecords (parse_response (Json.obj kvs)) = []) := by
  constructor
  · intro kvs xs hx
    have hp : parse_response (Json.obj kvs) = Except.ok (Json.arr xs) := by
      simp [parse_response, pyGet, hx]
    exact ⟨hp, by rw [hp]; rfl⟩
  · intro kvs hn
    have hp : parse_response (Json.obj kvs) = Except.ok Json.null := by
      simp [parse_response, pyGet, lookupD, hn]
    exact ⟨hp, by rw [hp]; rfl⟩

/-- C6 witness: the spec's example body yields exactly the records with
ids "1" and "2" in order, and a body whose object lacks `data` yields
`None` and no records. -/
theorem parseResponse_data_array_witness :
    parse_response (Json.obj [("data", Json.arr
        [Json.obj [("id", Json.str "1")], Json.obj [("id", Json.str "2")]])]) =
      Except.ok (Json.arr [Json.obj [("id", Json.str "1")],
                           Json.obj [("id", Json.str "2")]]) ∧
    emittedRecords (parse_response (Json.obj [("data", Json.arr
        [Json.obj [("id", Json.str "1")], Json.obj [("id", Json.str "2")]])])) =
      [Json.obj [("id", Json.str "1")], Json.obj [("id", Json.str "2")]] ∧
    parse_response (Json.obj [("meta", Json.null)]) = Except.ok Json.null ∧
    emittedRecords (parse_response (Json.obj [("meta", Json.null)])) = [] := by
  refine
    ⟨(parseResponse_data_array.1 [("data", Json.arr
        [Json.obj [("id", Json.str "1")], Json.obj [("id", Json.str "2")]])]
        [Json.obj [("id", Json.str "1")], Json.obj [("id", Json.str "2")]] rfl).1,
     (parseResponse_data_array.1 [("data", Json.arr
        [Json.obj [("id", Json.str "1")], Json.obj [("id", Json.str "2")]])]
        [Json.obj [("id", Json.str "1")], Json.obj [("id", Json.str "2")]] rfl).2,
     (parseResponse_data_array.2 [("meta", Json.null)] rfl).1,
     (parseResponse_data_array.2 [("meta", Json.null)] rfl).2⟩

/-- C7: `get_auth_header` produces exactly
`{Authorization: "Basic " ++ base64(app_id ++ ":" ++ secret)}` for every
credential pair; at app_id "abc", secret "xyz" this is the standard Basic
credential `"Basic YWJjOnh5eg=="`; the computation is pure and
deterministic. -/
theorem getAuthHeader_basic :
    (∀ app_id secret : String, get_auth_header app_id secret =
       [("Authorization",
         "Basic " ++ base64Encode (strBytes (app_id ++ ":" ++ secret)))]) ∧
    get_auth_header "abc" "xyz" = [("Authorization", "Basic YWJjOnh5eg==")] ∧
    (∀ app_id secret : String,
       get_auth_header app_id secret = get_auth_header app_id secret) :=
  ⟨fun _ _ => rfl, by decide, fun _ _ => rfl⟩

/-- C8: `streams` is total over configs: for every config — in particular
one lacking `app_id` or `secret` — it returns the eight stream objects,
each holding the authenticator built from the `config.get` results
(`null`, i.e. Python `None`, when a key is missing); no credential
validation happens at this layer. -/
theorem streams_tolerates_missing_credentials (config : List (String × Json)) :
    (streams config).map StreamObj.app_id =
      List.replicate 8 (lookupD config "app_id") ∧
    (streams config).map StreamObj.secret =
      List.replicate 8 (lookupD config "secret") ∧
    (streams []).length = 8 ∧
    (streams []).map StreamObj.app_id = List.replicate 8 Json.null ∧
    (streams []).map StreamObj.secret = List.replicate 8 Json.null :=
  ⟨rfl, rfl, rfl, rfl, rfl⟩

/-- C9: `check_connection` returns `(True, None)` for every logger and
config — it performs no verification at all. -/
theorem checkConnection_always_true (logger : Unit) (config : List (String × Json)) :
    check_connection logger config = (true, none) := rfl

/-- C10: `request_params` tests the truthiness of the token mapping, not
the offset value: for every non-empty token the `offset` key is included
with the token's offset value — even when that value is 0 or null. -/
theorem requestParams_nonempty_token_keeps_offset (kvs : PageTok) (h : kvs ≠ []) :
    request_params (some kvs) =
      [("per_page", Json.num 100), ("offset", lookupD kvs "offset")] := by
  have hk : kvs.isEmpty = false := by
    cases kvs with
    | nil => exact absurd rfl h
    | cons a as => rfl
  simp [request_params, hk]

/-- C10 witness: a cursor at offset 0 is not treated as the first request —
the offset key is emitted with value 0. -/
theorem requestParams_nonempty_token_keeps_offset_witness :
    request_params (some [("offset", Json.num 0)]) =
      [("per_page", Json.num 100), ("offset", Json.num 0)] := by
  have h := requestParams_nonempty_token_keeps_offset
    [("offset", Json.num 0)] (by simp)
  simpa [lookupD] using h

end PlanningCenter
